import Mathlib

/-!
Shallow embedding of the MoonBoard client-side state core:
the moodboard reducer (`moodboardReducer` from the context module),
the undo/redo history logic of `MoodboardCanvas`, the selection-box
filter of `StickerGroupManager`, and the persistence loader `loadState`.

JavaScript `Record<string, T>` objects are modelled as insertion-ordered
association lists (`JsMap`): assigning to an existing key updates it in
place, assigning to a fresh key appends, `delete` removes, and
`Object.keys` lists keys in insertion order, matching JS object semantics.
JS numbers are modelled as `Int` (none of the verified logic depends on
fractional values), and a possibly-absent object field as `Option`.
Reducer branches that throw (`ADD_TO_GROUP` / `REMOVE_FROM_GROUP` on a
missing group read a field of `undefined`; `UPDATE_STICKER` hits the
`default: throw` branch on an icon sticker) are modelled with `Except`.
-/

namespace MoonBoard

/-- A JavaScript object used as a string-keyed map, in insertion order. -/
abbrev JsMap (α : Type) : Type := List (String × α)

/-- `obj[k]`: the value at key `k`, or `undefined` (`none`). -/
def jsLookup (m : JsMap α) (k : String) : Option α :=
  (m.find? (fun p => p.1 = k)).map (·.2)

/-- `Object.keys(obj)`: keys in insertion order. -/
def jsKeys (m : JsMap α) : List String :=
  m.map (·.1)

/-- `{ ...obj, [k]: v }` / `obj[k] = v`: update in place if the key exists,
otherwise append. -/
def jsSet (m : JsMap α) (k : String) (v : α) : JsMap α :=
  if (jsLookup m k).isSome then
    m.map (fun p => if p.1 = k then (k, v) else p)
  else
    m ++ [(k, v)]

/-- `delete obj[k]`. -/
def jsDelete (m : JsMap α) (k : String) : JsMap α :=
  m.filter (fun p => p.1 ≠ k)

/-- `Object.keys(obj).forEach(k => obj[k] = f(obj[k]))`. -/
def jsMapValues (f : α → α) (m : JsMap α) : JsMap α :=
  m.map (fun p => (p.1, f p.2))

/-- JS `x || d` for an optional number field: `0` is falsy. -/
def jsOrInt (v : Option Int) (d : Int) : Int :=
  match v with
  | some x => if x = 0 then d else x
  | none => d

/-- JS `s || d` for an optional string field: `''` is falsy. -/
def jsOrStr (v : Option String) (d : String) : String :=
  match v with
  | some s => if s = "" then d else s
  | none => d

/-- JS `b || d` for an optional boolean field: `false` is falsy. -/
def jsOrBool (v : Option Bool) (d : Bool) : Bool :=
  match v with
  | some b => b || d
  | none => d

/-! ## Entity model (from the moodboard types module) -/

/-- `StickerType = 'text' | 'image' | 'icon' | 'link' | 'map' | 'custom'`. -/
inductive StickerType : Type
  | text | image | icon | link | map | custom
deriving DecidableEq, Repr

/-- `TimeRange { start, end }` (ISO date strings). -/
structure TimeRange : Type where
  start : String
  «end» : String
deriving DecidableEq, Repr

/-- Optional visual `style` payload of a sticker (opaque to invariants). -/
structure StickerStyle : Type where
  backgroundColor : Option String := none
  borderColor : Option String := none
  textColor : Option String := none
  fontSize : Option Int := none
  opacity : Option Int := none
deriving DecidableEq, Repr

/-- `originalSize` of an image sticker. -/
structure OriginalSize : Type where
  width : Int
  height : Int
deriving DecidableEq, Repr

/-- `location {lat, lng, zoom}` of a map sticker. -/
structure MapLocation : Type where
  lat : Int
  lng : Int
  zoom : Int
deriving DecidableEq, Repr

/-- A sticker object. The TS `Sticker` union is modelled as one record
discriminated by `type`; fields belonging to other variants (or optional
in TS) are `Option`, mirroring possibly-absent JS object properties. -/
structure Sticker : Type where
  id : String
  type : StickerType
  x : Int
  y : Int
  width : Int
  height : Int
  rotation : Int
  zIndex : Int
  timeSegmentId : String
  groupId : Option String := none
  isSelected : Option Bool := none
  style : Option StickerStyle := none
  content : Option String := none
  icon : Option String := none
  originalSize : Option OriginalSize := none
  alt : Option String := none
  title : Option String := none
  thumbnail : Option String := none
  location : Option MapLocation := none
  template : Option String := none
  data : Option (List (String × String)) := none
deriving DecidableEq, Repr

/-- A `TimeSegment` object. Every field is `Option` because the reducer's
`RENAME_SEGMENT` / `RESIZE_SEGMENT` / `UPDATE_SEGMENT` branches spread
`state.segments[id]` even when that lookup is `undefined`, producing an
object carrying only the supplied fields. -/
structure TimeSegment : Type where
  id : Option String := none
  title : Option String := none
  order : Option Int := none
  width : Option Int := none
  height : Option Int := none
  parentId : Option String := none
  childrenIds : Option (List String) := none
  timeRange : Option TimeRange := none
  color : Option String := none
  collapsed : Option Bool := none
  description : Option String := none
deriving DecidableEq, Repr

/-- The `{}` that results from spreading `undefined`. -/
def emptySegment : TimeSegment := {}

/-- `StickerGroup { id, name, stickerIds }`. -/
structure StickerGroup : Type where
  id : String
  name : String
  stickerIds : List String
deriving DecidableEq, Repr

/-- `ViewMode { type, scale, position }`. -/
structure ViewMode : Type where
  type : String
  scale : Int
  posX : Int
  posY : Int
deriving DecidableEq, Repr

/-- The root `MoodboardState` aggregate. -/
structure MoodboardState : Type where
  segments : JsMap TimeSegment
  stickers : JsMap Sticker
  segmentOrder : List String
  isDragging : Bool
  selectedStickerIds : List String
  selectedStickerId : Option String
  stickerGroups : JsMap StickerGroup
  viewMode : ViewMode
  templates : JsMap Sticker
  isMultiSelectMode : Bool
  isLoading : Option Bool := none
deriving DecidableEq, Repr

/-- The seeded initial state (one segment, "Day 1"). The two ISO
timestamps come from `new Date()` at mount time, so they are parameters
here. -/
def initialState (nowIso tomorrowIso : String) : MoodboardState where
  segments :=
    [("day-1",
      { id := some "day-1"
        title := some "Day 1"
        order := some 0
        width := some 300
        height := some 300
        childrenIds := some []
        timeRange := some { start := nowIso, «end» := tomorrowIso } })]
  stickers := []
  segmentOrder := ["day-1"]
  isDragging := false
  selectedStickerIds := []
  selectedStickerId := none
  stickerGroups := []
  viewMode := { type := "board", scale := 1, posX := 0, posY := 0 }
  templates := []
  isMultiSelectMode := false

/-- A concrete instance of the initial state, for closed evaluations. -/
def sampleInitialState : MoodboardState :=
  initialState "2025-01-01T00:00:00.000Z" "2025-01-02T00:00:00.000Z"

/-! ## Actions (from the `MoodboardAction` union) -/

/-- Payload of `ADD_SEGMENT` / `UPDATE_SEGMENT`:
`Partial<TimeSegment> & { id: string }`. -/
structure SegmentPayload : Type where
  id : String
  title : Option String := none
  order : Option Int := none
  width : Option Int := none
  height : Option Int := none
  parentId : Option String := none
  childrenIds : Option (List String) := none
  timeRange : Option TimeRange := none
  color : Option String := none
  collapsed : Option Bool := none
  description : Option String := none
deriving DecidableEq, Repr

/-- Payload of `UPDATE_STICKER`: `Partial<Sticker> & { id: string }`.
A `some` field is a property present in the partial (the code tests
presence with the `in` operator). -/
structure StickerPatch : Type where
  id : String
  type : Option StickerType := none
  x : Option Int := none
  y : Option Int := none
  width : Option Int := none
  height : Option Int := none
  rotation : Option Int := none
  zIndex : Option Int := none
  timeSegmentId : Option String := none
  groupId : Option String := none
  isSelected : Option Bool := none
  style : Option StickerStyle := none
  content : Option String := none
  icon : Option String := none
  originalSize : Option OriginalSize := none
  alt : Option String := none
  title : Option String := none
  thumbnail : Option String := none
  location : Option MapLocation := none
  template : Option String := none
  data : Option (List (String × String)) := none
deriving DecidableEq, Repr

/-- The `MoodboardAction` tagged union. `UPDATE_STICKER_ZINDEX`,
`BATCH_UPDATE` and `SET_LOADING` exist in the TS union but have no case
in the reducer switch, so they hit its `default` branch. -/
inductive MoodboardAction : Type
  | addSegment (payload : SegmentPayload)
  | removeSegment (id : String)
  | renameSegment (id : String) (title : String)
  | resizeSegment (id : String) (width : Int) (height : Int)
  | reorderSegments (segmentOrder : List String)
  | updateSegment (payload : SegmentPayload)
  | addSticker (payload : Sticker)
  | removeSticker (id : String)
  | updateSticker (payload : StickerPatch)
  | moveSticker (id : String) (x : Int) (y : Int) (timeSegmentId : String)
  | resizeSticker (id : String) (width : Int) (height : Int)
  | rotateSticker (id : String) (rotation : Int)
  | setStickerZIndex (id : String) (zIndex : Int)
  | selectSticker (id : String)
  | deselectSticker (id : String)
  | clearSelection
  | setMultiSelectMode (enabled : Bool)
  | toggleMultiSelect (enabled : Bool)
  | selectStickers (stickerIds : List String)
  | startDrag
  | endDrag
  | createStickerGroup (group : StickerGroup)
  | deleteStickerGroup (id : String)
  | addToGroup (groupId : String) (stickerId : String)
  | removeFromGroup (groupId : String) (stickerId : String)
  | setViewMode (v : ViewMode)
  | addTemplate (id : String) (template : Sticker)
  | removeTemplate (id : String)
  | setDragging (isDragging : Bool)
  | loadState (payload : MoodboardState)
  | updateStickerZIndex (id : String) (zIndex : Int)
  | batchUpdate
  | setLoading (isLoading : Bool)
deriving DecidableEq, Repr

/-- Errors the reducer can throw: the `default: throw new Error(...)`
branches of `ADD_STICKER` / `UPDATE_STICKER`, and the JS `TypeError`
raised by reading `.stickerIds` of `undefined` in `ADD_TO_GROUP` /
`REMOVE_FROM_GROUP` when the group id is absent. -/
inductive JsError : Type
  | invalidStickerType
  | typeError
deriving DecidableEq, Repr

/-! ## The reducer -/

/-- The `case 'ADD_SEGMENT'` construction of `newSegment` (JS `||`
defaults; `childrenIds` is always reset to `[]`, `description` is not
copied because the destructuring does not name it). -/
def mkNewSegment (p : SegmentPayload) : TimeSegment where
  id := some p.id
  title := some (jsOrStr p.title "New Segment")
  order := some (jsOrInt p.order 0)
  width := some (jsOrInt p.width 300)
  height := some (jsOrInt p.height 300)
  parentId := p.parentId
  childrenIds := some []
  timeRange := p.timeRange
  color := p.color
  collapsed := some (jsOrBool p.collapsed false)
  description := none

/-- `{ ...base, ...updates }` for `UPDATE_SEGMENT` (the `id` key is
destructured out of `updates` first, so `base.id` survives). -/
def applySegmentPatch (base : TimeSegment) (p : SegmentPayload) : TimeSegment where
  id := base.id
  title := p.title.or base.title
  order := p.order.or base.order
  width := p.width.or base.width
  height := p.height.or base.height
  parentId := p.parentId.or base.parentId
  childrenIds := p.childrenIds.or base.childrenIds
  timeRange := p.timeRange.or base.timeRange
  color := p.color.or base.color
  collapsed := p.collapsed.or base.collapsed
  description := p.description.or base.description

/-- The `case 'ADD_STICKER'` per-type normalization (`validatedSticker`).
The spread `{ ...sticker, ... }` keeps every other payload field. The
duplicate `case 'icon'` label in the source is unreachable (the first
one wins), and the `default: throw` branch is unreachable here because
`StickerType` is closed. -/
def validateSticker (s : Sticker) : Sticker :=
  match s.type with
  | .text => { s with content := some (jsOrStr s.content "") }
  | .image =>
      { s with
        content := some (jsOrStr s.content "")
        originalSize := some (s.originalSize.getD { width := 0, height := 0 }) }
  | .icon =>
      { s with
        content := some (jsOrStr s.content "")
        icon := some (jsOrStr s.icon "⭐") }
  | .link =>
      { s with
        content := some (jsOrStr s.content "")
        title := some (jsOrStr s.title "") }
  | .map =>
      { s with
        content := some (jsOrStr s.content "")
        location := some (s.location.getD { lat := 0, lng := 0, zoom := 1 }) }
  | .custom =>
      { s with
        content := some (jsOrStr s.content "")
        template := some (jsOrStr s.template "")
        data := some (s.data.getD []) }

/-- `{ ...existingSticker, ...updates, type: existing type }` for
`UPDATE_STICKER`. Each per-type branch re-asserts its variant fields with
`('field' in updates) ? updates.field : existing.field`, which is exactly
what the spread already produced, and forces `type` back to the existing
discriminant. -/
def mergeSticker (ex : Sticker) (p : StickerPatch) : Sticker where
  id := ex.id
  type := ex.type
  x := p.x.getD ex.x
  y := p.y.getD ex.y
  width := p.width.getD ex.width
  height := p.height.getD ex.height
  rotation := p.rotation.getD ex.rotation
  zIndex := p.zIndex.getD ex.zIndex
  timeSegmentId := p.timeSegmentId.getD ex.timeSegmentId
  groupId := p.groupId.or ex.groupId
  isSelected := p.isSelected.or ex.isSelected
  style := p.style.or ex.style
  content := p.content.or ex.content
  icon := p.icon.or ex.icon
  originalSize := p.originalSize.or ex.originalSize
  alt := p.alt.or ex.alt
  title := p.title.or ex.title
  thumbnail := p.thumbnail.or ex.thumbnail
  location := p.location.or ex.location
  template := p.template.or ex.template
  data := p.data.or ex.data

/-- The moodboard reducer (`moodboardReducer` in the context module),
one branch per `case` of its switch. -/
def moodboardReducer (state : MoodboardState) (action : MoodboardAction) :
    Except JsError MoodboardState :=
  match action with
  | .addSegment p =>
      .ok { state with
              segments := jsSet state.segments p.id (mkNewSegment p)
              segmentOrder := state.segmentOrder ++ [p.id] }
  | .removeSegment id =>
      .ok { state with
              segments := jsDelete state.segments id
              stickers := state.stickers.filter (fun kv => kv.2.timeSegmentId ≠ id)
              segmentOrder := state.segmentOrder.filter (fun segId => segId ≠ id) }
  | .renameSegment id title =>
      let base := (jsLookup state.segments id).getD emptySegment
      .ok { state with
              segments := jsSet state.segments id { base with title := some title } }
  | .resizeSegment id width height =>
      let base := (jsLookup state.segments id).getD emptySegment
      .ok { state with
              segments :=
                jsSet state.segments id
                  { base with width := some width, height := some height } }
  | .reorderSegments segmentOrder =>
      .ok { state with segmentOrder := segmentOrder }
  | .updateSegment p =>
      let base := (jsLookup state.segments p.id).getD emptySegment
      .ok { state with
              segments := jsSet state.segments p.id (applySegmentPatch base p) }
  | .addSticker p =>
      .ok { state with stickers := jsSet state.stickers p.id (validateSticker p) }
  | .removeSticker id =>
      .ok { state with
              stickers := jsDelete state.stickers id
              stickerGroups :=
                jsMapValues
                  (fun g => { g with stickerIds := g.stickerIds.filter (fun sid => sid ≠ id) })
                  state.stickerGroups
              selectedStickerIds := state.selectedStickerIds.filter (fun sid => sid ≠ id) }
  | .updateSticker p =>
      match jsLookup state.stickers p.id with
      | none => .ok state
      | some ex =>
          -- The switch on `existingSticker.type` has no `case 'icon'`,
          -- so an icon sticker falls into `default: throw`.
          match ex.type with
          | .icon => .error .invalidStickerType
          | _ => .ok { state with stickers := jsSet state.stickers p.id (mergeSticker ex p) }
  | .moveSticker id x y timeSegmentId =>
      match jsLookup state.stickers id with
      | none => .ok state
      | some ex =>
          .ok { state with
                  stickers :=
                    jsSet state.stickers id
                      { ex with x := x, y := y, timeSegmentId := timeSegmentId } }
  | .resizeSticker id width height =>
      match jsLookup state.stickers id with
      | none => .ok state
      | some ex =>
          .ok { state with
                  stickers := jsSet state.stickers id { ex with width := width, height := height } }
  | .rotateSticker id rotation =>
      match jsLookup state.stickers id with
      | none => .ok state
      | some ex =>
          .ok { state with
                  stickers := jsSet state.stickers id { ex with rotation := rotation } }
  | .setStickerZIndex id zIndex =>
      match jsLookup state.stickers id with
      | none => .ok state
      | some ex =>
          .ok { state with
                  stickers := jsSet state.stickers id { ex with zIndex := zIndex } }
  | .selectSticker id =>
      .ok { state with
              selectedStickerIds :=
                if state.isMultiSelectMode then state.selectedStickerIds ++ [id] else [id] }
  | .deselectSticker id =>
      .ok { state with
              selectedStickerIds := state.selectedStickerIds.filter (fun sid => sid ≠ id) }
  | .clearSelection =>
      .ok { state with selectedStickerIds := [] }
  | .setMultiSelectMode enabled =>
      .ok { state with isMultiSelectMode := enabled }
  | .toggleMultiSelect enabled =>
      .ok { state with
              isMultiSelectMode := enabled
              selectedStickerIds := if enabled then state.selectedStickerIds else [] }
  | .selectStickers stickerIds =>
      .ok { state with selectedStickerIds := stickerIds }
  | .startDrag =>
      .ok { state with isDragging := true }
  | .endDrag =>
      .ok { state with isDragging := false }
  | .createStickerGroup group =>
      .ok { state with stickerGroups := jsSet state.stickerGroups group.id group }
  | .deleteStickerGroup id =>
      .ok { state with stickerGroups := jsDelete state.stickerGroups id }
  | .addToGroup groupId stickerId =>
      match jsLookup state.stickerGroups groupId with
      | none => .error .typeError
      | some g =>
          .ok { state with
                  stickerGroups :=
                    jsSet state.stickerGroups groupId
                      { g with stickerIds := g.stickerIds ++ [stickerId] } }
  | .removeFromGroup groupId stickerId =>
      match jsLookup state.stickerGroups groupId with
      | none => .error .typeError
      | some g =>
          .ok { state with
                  stickerGroups :=
                    jsSet state.stickerGroups groupId
                      { g with
                          stickerIds := g.stickerIds.filter (fun id => id ≠ stickerId) } }
  | .setViewMode v =>
      .ok { state with viewMode := v }
  | .addTemplate id template =>
      .ok { state with templates := jsSet state.templates id template }
  | .removeTemplate id =>
      .ok { state with templates := jsDelete state.templates id }
  | .setDragging isDragging =>
      .ok { state with isDragging := isDragging }
  | .loadState payload =>
      .ok payload
  | .updateStickerZIndex _ _ => .ok state
  | .batchUpdate => .ok state
  | .setLoading _ => .ok state

/-- `dispatch` over a list of actions, propagating a thrown error. -/
def applyActions (s : MoodboardState) : List MoodboardAction → Except JsError MoodboardState
  | [] => .ok s
  | a :: rest =>
      match moodboardReducer s a with
      | .ok s' => applyActions s' rest
      | .error e => .error e

/-- The reducer result as an `Option`, for closed evaluations. -/
def reducerResult (s : MoodboardState) (a : MoodboardAction) : Option MoodboardState :=
  (moodboardReducer s a).toOption

/-! ## History manager (`MoodboardCanvas`)

`MoodboardCanvas` keeps `history : state[]` and `historyIndex` in local
component state, and runs an effect with dependency array
`[state.stickers, state.segments, state.segmentOrder]` after every
re-render in which one of those three changed. React's dependency
comparison is reference equality; here it is modelled as value equality
of the triple, which coincides with it on the runs verified below (the
reducer builds a fresh object whenever it changes one of the three).
The effect is modelled post-mount (the `historyIndex === -1`
initialization has already run, `initCanvas`). -/

structure CanvasHistory : Type where
  live : MoodboardState
  history : List MoodboardState
  historyIndex : Nat
deriving DecidableEq, Repr

/-- Did one of the three effect dependencies change? -/
def historyDepsChanged (a b : MoodboardState) : Bool :=
  decide (a.stickers ≠ b.stickers) || decide (a.segments ≠ b.segments) ||
    decide (a.segmentOrder ≠ b.segmentOrder)

/-- The body of the history effect: truncate after `historyIndex` when
not at the tail, then append the current state and advance the index. -/
def historyEffect (c : CanvasHistory) : CanvasHistory :=
  let truncated :=
    if c.historyIndex < c.history.length - 1 then c.history.take (c.historyIndex + 1)
    else c.history
  { c with history := truncated ++ [c.live], historyIndex := c.historyIndex + 1 }

/-- After a commit, run the history effect iff its dependencies changed
(`prevLive` is the state of the previous render). -/
def afterCommit (prevLive : MoodboardState) (c : CanvasHistory) : CanvasHistory :=
  if historyDepsChanged prevLive c.live then historyEffect c else c

/-- A `dispatch` from the canvas: reduce, then let the history effect
observe the new state. -/
def dispatchCanvas (c : CanvasHistory) (a : MoodboardAction) :
    Except JsError CanvasHistory :=
  match moodboardReducer c.live a with
  | .error e => .error e
  | .ok s' => .ok (afterCommit c.live { c with live := s' })

/-- `handleUndo`: if `historyIndex > 0`, decrement the index and dispatch
`LOAD_STATE` with `history[newIndex]`; the history effect then observes
the loaded state (there is no suppression flag in the code). The list
access is in range in every run modelled here. -/
def handleUndo (c : CanvasHistory) : CanvasHistory :=
  if c.historyIndex > 0 then
    let newIndex := c.historyIndex - 1
    afterCommit c.live
      { c with live := c.history.getD newIndex c.live, historyIndex := newIndex }
  else c

/-- `handleRedo`: if `historyIndex < history.length - 1`, increment the
index and dispatch `LOAD_STATE` with `history[newIndex]`. -/
def handleRedo (c : CanvasHistory) : CanvasHistory :=
  if c.historyIndex < c.history.length - 1 then
    let newIndex := c.historyIndex + 1
    afterCommit c.live
      { c with live := c.history.getD newIndex c.live, historyIndex := newIndex }
  else c

/-- The canvas after the initial effect run (`history = [state]`,
`historyIndex = 0`). -/
def initCanvas (s : MoodboardState) : CanvasHistory where
  live := s
  history := [s]
  historyIndex := 0

/-! ## Selection box (`StickerGroupManager.handleMouseUp`) -/

/-- The drawn selection rectangle, by its start and current corner. -/
structure SelectionBox : Type where
  startX : Int
  startY : Int
  endX : Int
  endY : Int
deriving DecidableEq, Repr

def boxLeft (b : SelectionBox) : Int := min b.startX b.endX
def boxRight (b : SelectionBox) : Int := max b.startX b.endX
def boxTop (b : SelectionBox) : Int := min b.startY b.endY
def boxBottom (b : SelectionBox) : Int := max b.startY b.endY

/-- The intersection test of `handleMouseUp`: strict inequalities on all
four sides. -/
def stickerHitsBox (st : Sticker) (b : SelectionBox) : Bool :=
  decide (st.x < boxRight b) && decide (st.x + st.width > boxLeft b) &&
    decide (st.y < boxBottom b) && decide (st.y + st.height > boxTop b)

/-- `Object.values(state.stickers).filter(...)` of `handleMouseUp`. -/
def selectionHits (stickers : JsMap Sticker) (b : SelectionBox) : List Sticker :=
  (stickers.map (·.2)).filter (fun st => stickerHitsBox st b)

/-- The sticker ids `handleMouseUp` dispatches via `SELECT_STICKERS`
(when the list is non-empty). -/
def handleMouseUpSelectedIds (stickers : JsMap Sticker) (b : SelectionBox) : List String :=
  (selectionHits stickers b).map (·.id)

/-- The spec's strict-overlap predicate, written from its words:
`stickerLeft < boxRight && stickerRight > boxLeft && stickerTop < boxBottom
&& stickerBottom > boxTop`, to be compared with `stickerHitsBox`. -/
def strictOverlapSpec (st : Sticker) (b : SelectionBox) : Prop :=
  st.x < boxRight b ∧ st.x + st.width > boxLeft b ∧
    st.y < boxBottom b ∧ st.y + st.height > boxTop b

/-! ## Persistence (`loadState` of the storage module) -/

/-- The error taxonomy used by `loadState`. -/
inductive PersistError : Type
  | validationError
  | stateError
deriving DecidableEq, Repr

/-- `STATE_VERSION = 1`. -/
def STATE_VERSION : Int := 1

/-- The parsed `state` member of a stored blob. The `isValidMoodboardState`
structural checks (`typeof state === 'object'`, `'segments' in state`,
`'stickers' in state`, `Array.isArray(state.segmentOrder)`) are modelled
as flags on the parsed value, since Lean values carry no JSON shape. -/
structure StoredMoodboard : Type where
  isObject : Bool
  hasSegmentsObject : Bool
  hasStickersObject : Bool
  hasSegmentOrderArray : Bool
  value : MoodboardState
deriving DecidableEq, Repr

/-- The stored blob `{ version, state, timestamp }`. -/
structure StoredState : Type where
  version : Int
  state : StoredMoodboard
  timestamp : Int
deriving DecidableEq, Repr

/-- `isValidMoodboardState`: throws `ValidationError` unless all
structural checks pass, then returns `true`. -/
def isValidMoodboardState (st : StoredMoodboard) : Except PersistError Bool :=
  if !st.isObject then .error .validationError
  else if !st.hasSegmentsObject then .error .validationError
  else if !st.hasStickersObject then .error .validationError
  else if !st.hasSegmentOrderArray then .error .validationError
  else .ok true

/-- `loadState`. The input models `localStorage.getItem` followed by
`JSON.parse`: `none` is no stored value (returns `null`), `some none` is
an unparseable string (`ValidationError`), `some (some blob)` is a parsed
blob. A version other than `STATE_VERSION` is a `StateError`; a blob
failing the structural checks is a `ValidationError`; otherwise the
stored state is returned. -/
def loadState (savedData : Option (Option StoredState)) :
    Except PersistError (Option MoodboardState) :=
  match savedData with
  | none => .ok none
  | some none => .error .validationError
  | some (some stored) =>
      if stored.version ≠ STATE_VERSION then .error .stateError
      else
        match isValidMoodboardState stored.state with
        | .error e => .error e
        | .ok _ => .ok (some stored.state.value)

/-! ## Invariants and guarded runs -/

/-- The `segmentOrder` secondary-index invariant: `segmentOrder` is a
permutation of `Object.keys(segments)`. -/
def segInv (s : MoodboardState) : Prop :=
  s.segmentOrder.Perm (jsKeys s.segments)

instance (s : MoodboardState) : Decidable (segInv s) :=
  inferInstanceAs (Decidable (List.Perm _ _))

/-- The ownership invariant: every sticker's `timeSegmentId` is a key of
`segments`. -/
def stickerSegInv (s : MoodboardState) : Prop :=
  ∀ kv ∈ s.stickers, kv.2.timeSegmentId ∈ jsKeys s.segments

instance (s : MoodboardState) : Decidable (stickerSegInv s) :=
  List.decidableBAll _ s.stickers

/-- A sequence of segment actions in which every `ADD_SEGMENT` id is
fresh at its point of dispatch (and only `ADD_SEGMENT` / `REMOVE_SEGMENT`
occur). -/
def freshSegRun (s : MoodboardState) : List MoodboardAction → Bool
  | [] => true
  | a :: rest =>
      (match a with
        | .addSegment p => (jsLookup s.segments p.id).isNone
        | .removeSegment _ => true
        | _ => false) &&
      (match moodboardReducer s a with
        | .ok s' => freshSegRun s' rest
        | .error _ => true)

/-- An action that never introduces a dangling `timeSegmentId`: sticker
creations/moves/updates must target an existing segment, and a loaded
state must itself satisfy the ownership invariant. -/
def goodSegRefAct (s : MoodboardState) : MoodboardAction → Bool
  | .addSticker p => decide (p.timeSegmentId ∈ jsKeys s.segments)
  | .moveSticker _ _ _ timeSegmentId => decide (timeSegmentId ∈ jsKeys s.segments)
  | .updateSticker p =>
      match p.timeSegmentId with
      | none => true
      | some ts => decide (ts ∈ jsKeys s.segments)
  | .loadState payload => decide (stickerSegInv payload)
  | _ => true

/-- A run of actions each of which is `goodSegRefAct` in the state where
it is dispatched. -/
def goodSegRefRun (s : MoodboardState) : List MoodboardAction → Bool
  | [] => true
  | a :: rest =>
      goodSegRefAct s a &&
      (match moodboardReducer s a with
        | .ok s' => goodSegRefRun s' rest
        | .error _ => true)

/-! Concrete inputs used by the closed evaluations below. -/

/-- Decidable equality for `Except`, for closed-run evaluations. -/
def exceptDecEq {e a : Type} [DecidableEq e] [DecidableEq a] :
    (x y : Except e a) → Decidable (x = y)
  | .ok u, .ok v =>
      if h : u = v then isTrue (by rw [h]) else isFalse (fun hc => h (Except.ok.inj hc))
  | .error u, .error v =>
      if h : u = v then isTrue (by rw [h]) else isFalse (fun hc => h (Except.error.inj hc))
  | .ok _, .error _ => isFalse (fun hc => Except.noConfusion hc)
  | .error _, .ok _ => isFalse (fun hc => Except.noConfusion hc)

instance {e a : Type} [DecidableEq e] [DecidableEq a] : DecidableEq (Except e a) := exceptDecEq

/-- An `ADD_SEGMENT` payload whose id collides with the seeded segment. -/
def dupSegPayload : SegmentPayload := { id := "day-1", title := some ("Day 1 again") }

/-- A text sticker whose `timeSegmentId` references no segment. -/
def ghostSticker : Sticker :=
  { id := "s1", type := .text, x := 0, y := 0, width := 100, height := 50,
    rotation := 0, zIndex := 1, timeSegmentId := "no-such-segment", content := some ("Hi") }

/-- A text sticker placed in the seeded segment. -/
def demoSticker : Sticker :=
  { id := "s1", type := .text, x := 0, y := 0, width := 100, height := 50,
    rotation := 0, zIndex := 1, timeSegmentId := "day-1", content := some ("Hi") }

/-- A group containing the demo sticker. -/
def demoGroup : StickerGroup := { id := "g1", name := "G1", stickerIds := ["s1"] }

/-- The state holding the demo sticker and the demo group. -/
def c4PreState : MoodboardState :=
  match applyActions sampleInitialState [.addSticker demoSticker, .createStickerGroup demoGroup] with
  | .ok t => t
  | .error _ => sampleInitialState

/-- The state after removing the seeded segment from `c4PreState`. -/
def c4Result : MoodboardState :=
  match moodboardReducer c4PreState (.removeSegment ("day-1")) with
  | .ok t => t
  | .error _ => c4PreState

/-- A segment run with a fresh add followed by a removal. -/
def w1Acts : List MoodboardAction :=
  [.addSegment { id := "day-2", title := some ("Day 2") }, .removeSegment ("day-1")]

/-- The state resulting from `w1Acts`. -/
def w1Result : MoodboardState :=
  match applyActions sampleInitialState w1Acts with
  | .ok t => t
  | .error _ => sampleInitialState

/-- A sticker run whose segment references always exist. -/
def w5Acts : List MoodboardAction :=
  [.addSticker demoSticker, .moveSticker ("s1") 5 5 ("day-1"), .removeSegment ("day-1")]

/-- The state resulting from `w5Acts`. -/
def w5Result : MoodboardState :=
  match applyActions sampleInitialState w5Acts with
  | .ok t => t
  | .error _ => sampleInitialState

/-- The state after removing the demo sticker from `c4PreState`. -/
def w7Result : MoodboardState :=
  match moodboardReducer c4PreState (.removeSticker ("s1")) with
  | .ok t => t
  | .error _ => c4PreState

/-- An `UPDATE_SEGMENT` payload whose id is absent from the seeded state. -/
def ghostPatch : SegmentPayload := { id := "ghost2", color := some ("#fff") }

/-- A drawn selection box from `(0,0)` to `(10,10)`. -/
def touchBox : SelectionBox := { startX := 0, startY := 0, endX := 10, endY := 10 }

/-- A sticker whose right edge exactly touches the left edge of `touchBox`. -/
def touchSticker : Sticker :=
  { id := "t1", type := .text, x := -5, y := 2, width := 5, height := 4,
    rotation := 0, zIndex := 1, timeSegmentId := "day-1" }

/-- A stored blob carrying an unsupported schema version. -/
def badStored : StoredState :=
  { version := 2
    state := { isObject := true, hasSegmentsObject := true, hasStickersObject := true,
               hasSegmentOrderArray := true, value := sampleInitialState }
    timestamp := 0 }

/-- The canvas after dispatching one `ADD_STICKER` on the initial state. -/
def canvas1 : CanvasHistory :=
  match dispatchCanvas (initCanvas sampleInitialState) (.addSticker demoSticker) with
  | .ok c => c
  | .error _ => initCanvas sampleInitialState

/-! Lemmas about the JS object model. -/

theorem find?_filter_comm {α : Type} (l : List α) (p q : α → Bool)
    (h : ∀ a, q a = true → p a = true) :
    (l.filter p).find? q = l.find? q := by
  induction l with
  | nil => rfl
  | cons a t ih =>
      rw [List.filter_cons]
      by_cases hp : p a = true
      · rw [if_pos hp]
        by_cases hq : q a = true
        · rw [List.find?_cons_of_pos _ hq, List.find?_cons_of_pos _ hq]
        · rw [List.find?_cons_of_neg _ hq, List.find?_cons_of_neg _ hq, ih]
      · rw [if_neg hp]
        have hq : ¬ q a = true := fun hq => hp (h a hq)
        rw [List.find?_cons_of_neg _ hq, ih]

theorem jsKeys_filter_key {α : Type} (m : JsMap α) (q : String → Bool) :
    jsKeys (m.filter (fun p => q p.1)) = (jsKeys m).filter q := by
  induction m with
  | nil => rfl
  | cons p t ih =>
      rw [List.filter_cons]
      by_cases hq : q p.1 = true
      · rw [if_pos hq]
        show p.1 :: jsKeys (t.filter (fun p => q p.1)) = List.filter q (p.1 :: jsKeys t)
        rw [List.filter_cons, if_pos hq, ih]
      · rw [if_neg hq]
        show jsKeys (t.filter (fun p => q p.1)) = List.filter q (p.1 :: jsKeys t)
        rw [List.filter_cons, if_neg hq, ih]

theorem jsKeys_jsDelete {α : Type} (m : JsMap α) (k : String) :
    jsKeys (jsDelete m k) = (jsKeys m).filter (fun x => x ≠ k) :=
  jsKeys_filter_key m (fun x => decide (x ≠ k))

theorem jsLookup_jsDelete_self {α : Type} (m : JsMap α) (k : String) :
    jsLookup (jsDelete m k) k = none := by
  unfold jsLookup jsDelete
  rw [Option.map_eq_none', List.find?_eq_none]
  intro p hp
  have h2 : p.1 ≠ k := by simpa using (List.mem_filter.1 hp).2
  simpa using h2

theorem jsLookup_jsDelete_ne {α : Type} (m : JsMap α) {k k' : String} (h : k' ≠ k) :
    jsLookup (jsDelete m k) k' = jsLookup m k' := by
  unfold jsLookup jsDelete
  rw [find?_filter_comm]
  intro a ha
  have h2 : a.1 = k' := by simpa using ha
  simpa using h2 ▸ h

theorem jsLookup_jsSet_self {α : Type} (m : JsMap α) (k : String) (v : α) :
    jsLookup (jsSet m k v) k = some v := by
  unfold jsSet
  by_cases hs : (jsLookup m k).isSome = true
  · rw [if_pos hs]
    unfold jsLookup at *
    induction m with
    | nil => simp at hs
    | cons p t ih =>
        by_cases hk : p.1 = k
        · rw [List.map_cons, if_pos (by simpa using hk)]
          rw [List.find?_cons_of_pos _ (by simp)]
          rfl
        · rw [List.map_cons, if_neg (by simpa using hk)]
          rw [List.find?_cons_of_neg _ (by simpa using hk)]
          apply ih
          rwa [List.find?_cons_of_neg _ (by simpa using hk)] at hs
  · rw [if_neg hs]
    unfold jsLookup at *
    have hnone : m.find? (fun p => p.1 = k) = none := by
      cases hf : m.find? (fun p => p.1 = k)
      · rfl
      · rw [hf] at hs; simp at hs
    induction m with
    | nil => simp
    | cons p t ih =>
        by_cases hk : p.1 = k
        · rw [List.find?_cons_of_pos _ (by simpa using hk)] at hnone; cases hnone
        · rw [List.cons_append, List.find?_cons_of_neg _ (by simpa using hk)]
          rw [List.find?_cons_of_neg _ (by simpa using hk)] at hnone
          exact ih (by simp [hnone]) hnone

theorem jsSet_of_lookup_none {α : Type} {m : JsMap α} {k : String} (v : α)
    (h : jsLookup m k = none) : jsSet m k v = m ++ [(k, v)] := by
  simp [jsSet, h]

theorem jsKeys_jsSet {α : Type} (m : JsMap α) (k : String) (v : α) :
    jsKeys (jsSet m k v) =
      if (jsLookup m k).isSome then jsKeys m else jsKeys m ++ [k] := by
  unfold jsSet jsKeys
  split
  · rw [List.map_map]
    apply List.map_congr_left
    intro p _
    by_cases h : p.1 = k <;> simp [h]
  · simp

theorem mem_jsKeys_jsSet {α : Type} {m : JsMap α} {k x : String} {v : α}
    (h : x ∈ jsKeys m) : x ∈ jsKeys (jsSet m k v) := by
  rw [jsKeys_jsSet]
  split
  · exact h
  · exact List.mem_append_left _ h

theorem mem_of_mem_jsSet {α : Type} {m : JsMap α} {k : String} {v : α} {kv : String × α}
    (h : kv ∈ jsSet m k v) : kv ∈ m ∨ kv = (k, v) := by
  unfold jsSet at h
  split at h
  · rcases List.mem_map.1 h with ⟨p, hp, heq⟩
    by_cases hk : p.1 = k
    · right; simp [hk] at heq; exact heq.symm
    · left; simp [hk] at heq; exact heq ▸ hp
  · rcases List.mem_append.1 h with h' | h'
    · left; exact h'
    · right; simpa using h'

theorem jsLookup_mem {α : Type} {m : JsMap α} {k : String} {v : α}
    (h : jsLookup m k = some v) : (k, v) ∈ m := by
  unfold jsLookup at h
  cases hf : m.find? (fun p => p.1 = k) with
  | none => rw [hf] at h; simp at h
  | some p =>
      rw [hf] at h
      simp only [Option.map_some'] at h
      have hmem := List.mem_of_find?_eq_some hf
      have hp : p.1 = k := by simpa using List.find?_some hf
      obtain ⟨p1, p2⟩ := p
      cases h
      cases hp
      exact hmem

theorem mem_of_mem_jsDelete {α : Type} {m : JsMap α} {k : String} {kv : String × α}
    (h : kv ∈ jsDelete m k) : kv ∈ m :=
  (List.mem_filter.1 h).1

/-! The segmentOrder permutation invariant (C1). -/

theorem segInv_addSegment_fresh {s : MoodboardState} {p : SegmentPayload}
    (hfresh : jsLookup s.segments p.id = none) (hinv : segInv s) :
    segInv { s with
               segments := jsSet s.segments p.id (mkNewSegment p)
               segmentOrder := s.segmentOrder ++ [p.id] } := by
  unfold segInv at *
  show (s.segmentOrder ++ [p.id]).Perm (jsKeys (jsSet s.segments p.id (mkNewSegment p)))
  rw [jsKeys_jsSet, if_neg (by simp [hfresh])]
  exact hinv.append_right [p.id]

theorem segInv_removeSegment {s : MoodboardState} {id : String} (hinv : segInv s) :
    segInv { s with
               segments := jsDelete s.segments id
               stickers := s.stickers.filter (fun kv => kv.2.timeSegmentId ≠ id)
               segmentOrder := s.segmentOrder.filter (fun segId => segId ≠ id) } := by
  unfold segInv at *
  show (s.segmentOrder.filter _).Perm (jsKeys (jsDelete s.segments id))
  rw [jsKeys_jsDelete]
  exact hinv.filter _

/-- C1 (amended): for every sequence of `ADD_SEGMENT` / `REMOVE_SEGMENT`
actions in which each `ADD_SEGMENT` id is fresh at its point of dispatch,
`segmentOrder` remains a permutation of the keys of `segments`. As
originally stated — with no freshness condition — the claim is false:
see the counterexample below, where a duplicate `ADD_SEGMENT` id leaves
`segmentOrder` with a duplicate entry. -/
theorem segInv_of_freshSegRun (acts : List MoodboardAction) (s : MoodboardState)
    (hrun : freshSegRun s acts = true) (hinv : segInv s) (s' : MoodboardState)
    (hok : applyActions s acts = .ok s') : segInv s' := by
  induction acts generalizing s with
  | nil =>
      unfold applyActions at hok
      cases hok
      exact hinv
  | cons a rest ih =>
      unfold freshSegRun at hrun
      rw [Bool.and_eq_true] at hrun
      obtain ⟨hact, hrest⟩ := hrun
      unfold applyActions at hok
      cases a with
      | addSegment p =>
          simp only [moodboardReducer] at hok hrest
          have hfresh : jsLookup s.segments p.id = none := by
            simpa [Option.isNone_iff_eq_none] using hact
          exact ih _ hrest (segInv_addSegment_fresh hfresh hinv) hok
      | removeSegment id =>
          simp only [moodboardReducer] at hok hrest
          exact ih _ hrest (segInv_removeSegment hinv) hok
      | renameSegment id title => simp at hact
      | resizeSegment id w h => simp at hact
      | reorderSegments so => simp at hact
      | updateSegment p => simp at hact
      | addSticker p => simp at hact
      | removeSticker id => simp at hact
      | updateSticker p => simp at hact
      | moveSticker id x y ts => simp at hact
      | resizeSticker id w h => simp at hact
      | rotateSticker id r => simp at hact
      | setStickerZIndex id z => simp at hact
      | selectSticker id => simp at hact
      | deselectSticker id => simp at hact
      | clearSelection => simp at hact
      | setMultiSelectMode e => simp at hact
      | toggleMultiSelect e => simp at hact
      | selectStickers ids => simp at hact
      | startDrag => simp at hact
      | endDrag => simp at hact
      | createStickerGroup g => simp at hact
      | deleteStickerGroup id => simp at hact
      | addToGroup g st => simp at hact
      | removeFromGroup g st => simp at hact
      | setViewMode v => simp at hact
      | addTemplate id t => simp at hact
      | removeTemplate id => simp at hact
      | setDragging b => simp at hact
      | loadState st => simp at hact
      | updateStickerZIndex id z => simp at hact
      | batchUpdate => simp at hact
      | setLoading b => simp at hact

/-- Witness for C1: a fresh add followed by a removal keeps the
permutation invariant. -/
theorem segInv_of_freshSegRun_witness : segInv w1Result :=
  segInv_of_freshSegRun w1Acts sampleInitialState (by decide) (by decide) w1Result (by decide)

/-- Counterexample to C1 as stated: dispatching `ADD_SEGMENT` with the
already-present id `day-1` on the initial state breaks the permutation
invariant (`segmentOrder` becomes `[day-1, day-1]`). -/
theorem segInv_duplicate_addSegment_cex :
    (reducerResult sampleInitialState (.addSegment dupSegPayload)).map
        (fun t => decide (segInv t)) = some false := by
  decide

/-- C2 (amended): `ADD_SEGMENT` with an id already present in `segments`
is not a no-op — it overwrites the stored segment with the re-normalized
payload and appends the id to `segmentOrder` again, so the resulting
state always differs from the input state. -/
theorem addSegment_duplicate_overwrites (s : MoodboardState) (p : SegmentPayload)
    (_hdup : (jsLookup s.segments p.id).isSome = true) :
    moodboardReducer s (.addSegment p) =
      .ok { s with
              segments := jsSet s.segments p.id (mkNewSegment p)
              segmentOrder := s.segmentOrder ++ [p.id] } ∧
    jsLookup (jsSet s.segments p.id (mkNewSegment p)) p.id = some (mkNewSegment p) ∧
    { s with
        segments := jsSet s.segments p.id (mkNewSegment p)
        segmentOrder := s.segmentOrder ++ [p.id] } ≠ s := by
  refine ⟨rfl, jsLookup_jsSet_self _ _ _, ?_⟩
  intro he
  have h2 : s.segmentOrder ++ [p.id] = s.segmentOrder :=
    congrArg MoodboardState.segmentOrder he
  have h3 := congrArg List.length h2
  simp at h3

/-- Witness for C2's amended statement at the duplicate payload. -/
theorem addSegment_duplicate_overwrites_witness :
    { sampleInitialState with
        segments := jsSet sampleInitialState.segments dupSegPayload.id (mkNewSegment dupSegPayload)
        segmentOrder := sampleInitialState.segmentOrder ++ [dupSegPayload.id] } ≠
      sampleInitialState :=
  (addSegment_duplicate_overwrites sampleInitialState dupSegPayload (by decide)).2.2

/-- Counterexample to C2 as stated: re-adding `day-1` does not return the
state unchanged — the segment's title is overwritten and `segmentOrder`
gains a duplicate. -/
theorem addSegment_duplicate_not_noop :
    reducerResult sampleInitialState (.addSegment dupSegPayload) ≠ some sampleInitialState ∧
    (reducerResult sampleInitialState (.addSegment dupSegPayload)).map
        (fun t => ((jsLookup t.segments ("day-1")).map TimeSegment.title, t.segmentOrder)) =
      some (some (some ("Day 1 again")), ["day-1", "day-1"]) := by
  constructor
  · decide
  · decide

/-- C3 (code bug): after one `ADD_STICKER` and an undo, the sticker is
absent as claimed; but the history effect, which has no suppression flag
for history-driven loads, observes the undo's `LOAD_STATE`, truncates the
redo entry and re-appends the restored snapshot, so the index returns to
the tail, redo becomes a no-op, and the sticker never reappears. -/
theorem undo_redo_history_effect_bug :
    (jsLookup canvas1.live.stickers ("s1")).isSome = true ∧
    canvas1.history = [sampleInitialState, canvas1.live] ∧
    canvas1.historyIndex = 1 ∧
    jsLookup (handleUndo canvas1).live.stickers ("s1") = none ∧
    (handleUndo canvas1).history = [sampleInitialState, sampleInitialState] ∧
    (handleUndo canvas1).historyIndex = 1 ∧
    handleRedo (handleUndo canvas1) = handleUndo canvas1 ∧
    jsLookup (handleRedo (handleUndo canvas1)).live.stickers ("s1") = none := by
  decide

/-- C4 (amended): `REMOVE_SEGMENT` deletes every sticker whose
`timeSegmentId` matches the removed id, but `stickerGroups` is returned
untouched — the deleted stickers' ids are NOT removed from any group's
`stickerIds`. -/
theorem removeSegment_no_group_cleanup (s : MoodboardState) (id : String) (s' : MoodboardState)
    (hok : moodboardReducer s (.removeSegment id) = .ok s') :
    (∀ kv ∈ s'.stickers, kv.2.timeSegmentId ≠ id) ∧ s'.stickerGroups = s.stickerGroups := by
  simp only [moodboardReducer] at hok
  cases hok
  refine ⟨?_, rfl⟩
  intro kv hkv
  have h2 := (List.mem_filter.1 hkv).2
  simpa using h2

/-- Witness for C4's amended statement at a concrete state holding one
sticker and one group. -/
theorem removeSegment_no_group_cleanup_witness :
    c4Result.stickerGroups = c4PreState.stickerGroups :=
  (removeSegment_no_group_cleanup c4PreState ("day-1") c4Result (by decide)).2

/-- Counterexample to C4 as stated: removing `day-1` deletes the sticker
`s1` (the stickers map becomes empty) yet group `g1` still lists `s1`. -/
theorem removeSegment_dangling_group_cex :
    (applyActions sampleInitialState
        [.addSticker demoSticker, .createStickerGroup demoGroup,
         .removeSegment ("day-1")]).toOption.map
        (fun t => ((jsLookup t.stickerGroups ("g1")).map StickerGroup.stickerIds,
                   t.stickers.length)) =
      some (some ["s1"], 0) := by
  decide

/-! The sticker-ownership invariant (C5). -/

theorem validateSticker_timeSegmentId (p : Sticker) :
    (validateSticker p).timeSegmentId = p.timeSegmentId := by
  unfold validateSticker
  split <;> rfl

theorem stickerSegInv_step {s : MoodboardState} {a : MoodboardAction} {s' : MoodboardState}
    (hinv : stickerSegInv s) (hgood : goodSegRefAct s a = true)
    (hok : moodboardReducer s a = .ok s') : stickerSegInv s' := by
  cases a with
  | addSegment p =>
      simp only [moodboardReducer] at hok
      cases hok
      intro kv hkv
      exact mem_jsKeys_jsSet (hinv kv hkv)
  | removeSegment id =>
      simp only [moodboardReducer] at hok
      cases hok
      intro kv hkv
      obtain ⟨hmem, hts⟩ := List.mem_filter.1 hkv
      rw [jsKeys_jsDelete]
      exact List.mem_filter.2 ⟨hinv kv hmem, hts⟩
  | renameSegment id title =>
      simp only [moodboardReducer] at hok
      cases hok
      intro kv hkv
      exact mem_jsKeys_jsSet (hinv kv hkv)
  | resizeSegment id w h =>
      simp only [moodboardReducer] at hok
      cases hok
      intro kv hkv
      exact mem_jsKeys_jsSet (hinv kv hkv)
  | reorderSegments so =>
      simp only [moodboardReducer] at hok
      cases hok
      exact hinv
  | updateSegment p =>
      simp only [moodboardReducer] at hok
      cases hok
      intro kv hkv
      exact mem_jsKeys_jsSet (hinv kv hkv)
  | addSticker p =>
      simp only [moodboardReducer] at hok
      cases hok
      intro kv hkv
      rcases mem_of_mem_jsSet hkv with hold | hnew
      · exact hinv kv hold
      · rw [hnew]
        show (validateSticker p).timeSegmentId ∈ jsKeys s.segments
        rw [validateSticker_timeSegmentId]
        exact of_decide_eq_true hgood
  | removeSticker id =>
      simp only [moodboardReducer] at hok
      cases hok
      intro kv hkv
      exact hinv kv (mem_of_mem_jsDelete hkv)
  | updateSticker p =>
      simp only [moodboardReducer] at hok
      cases hl : jsLookup s.stickers p.id with
      | none => rw [hl] at hok; cases hok; exact hinv
      | some ex =>
          simp only [hl] at hok
          cases htype : ex.type <;> simp only [htype] at hok
          case icon => cases hok
          all_goals
            cases hok
            intro kv hkv
            rcases mem_of_mem_jsSet hkv with hold | hnew
            · exact hinv kv hold
            · rw [hnew]
              show (mergeSticker ex p).timeSegmentId ∈ jsKeys s.segments
              show p.timeSegmentId.getD ex.timeSegmentId ∈ jsKeys s.segments
              cases hts : p.timeSegmentId with
              | none => exact hinv (p.id, ex) (jsLookup_mem hl)
              | some ts =>
                  simp only [Option.getD_some]
                  have h2 := hgood
                  simp only [goodSegRefAct, hts, decide_eq_true_eq] at h2
                  exact h2
  | moveSticker id x y ts =>
      simp only [moodboardReducer] at hok
      cases hl : jsLookup s.stickers id with
      | none => rw [hl] at hok; cases hok; exact hinv
      | some ex =>
          rw [hl] at hok
          cases hok
          intro kv hkv
          rcases mem_of_mem_jsSet hkv with hold | hnew
          · exact hinv kv hold
          · rw [hnew]
            exact of_decide_eq_true hgood
  | resizeSticker id w h =>
      simp only [moodboardReducer] at hok
      cases hl : jsLookup s.stickers id with
      | none => rw [hl] at hok; cases hok; exact hinv
      | some ex =>
          rw [hl] at hok
          cases hok
          intro kv hkv
          rcases mem_of_mem_jsSet hkv with hold | hnew
          · exact hinv kv hold
          · rw [hnew]
            exact hinv (id, ex) (jsLookup_mem hl)
  | rotateSticker id r =>
      simp only [moodboardReducer] at hok
      cases hl : jsLookup s.stickers id with
      | none => rw [hl] at hok; cases hok; exact hinv
      | some ex =>
          rw [hl] at hok
          cases hok
          intro kv hkv
          rcases mem_of_mem_jsSet hkv with hold | hnew
          · exact hinv kv hold
          · rw [hnew]
            exact hinv (id, ex) (jsLookup_mem hl)
  | setStickerZIndex id z =>
      simp only [moodboardReducer] at hok
      cases hl : jsLookup s.stickers id with
      | none => rw [hl] at hok; cases hok; exact hinv
      | some ex =>
          rw [hl] at hok
          cases hok
          intro kv hkv
          rcases mem_of_mem_jsSet hkv with hold | hnew
          · exact hinv kv hold
          · rw [hnew]
            exact hinv (id, ex) (jsLookup_mem hl)
  | selectSticker id => simp only [moodboardReducer] at hok; cases hok; exact hinv
  | deselectSticker id => simp only [moodboardReducer] at hok; cases hok; exact hinv
  | clearSelection => simp only [moodboardReducer] at hok; cases hok; exact hinv
  | setMultiSelectMode e => simp only [moodboardReducer] at hok; cases hok; exact hinv
  | toggleMultiSelect e => simp only [moodboardReducer] at hok; cases hok; exact hinv
  | selectStickers ids => simp only [moodboardReducer] at hok; cases hok; exact hinv
  | startDrag => simp only [moodboardReducer] at hok; cases hok; exact hinv
  | endDrag => simp only [moodboardReducer] at hok; cases hok; exact hinv
  | createStickerGroup g => simp only [moodboardReducer] at hok; cases hok; exact hinv
  | deleteStickerGroup id => simp only [moodboardReducer] at hok; cases hok; exact hinv
  | addToGroup gid sid =>
      simp only [moodboardReducer] at hok
      cases hl : jsLookup s.stickerGroups gid with
      | none => rw [hl] at hok; cases hok
      | some g => rw [hl] at hok; cases hok; exact hinv
  | removeFromGroup gid sid =>
      simp only [moodboardReducer] at hok
      cases hl : jsLookup s.stickerGroups gid with
      | none => rw [hl] at hok; cases hok
      | some g => rw [hl] at hok; cases hok; exact hinv
  | setViewMode v => simp only [moodboardReducer] at hok; cases hok; exact hinv
  | addTemplate id t => simp only [moodboardReducer] at hok; cases hok; exact hinv
  | removeTemplate id => simp only [moodboardReducer] at hok; cases hok; exact hinv
  | setDragging b => simp only [moodboardReducer] at hok; cases hok; exact hinv
  | loadState payload =>
      simp only [moodboardReducer] at hok
      cases hok
      exact of_decide_eq_true hgood
  | updateStickerZIndex id z => simp only [moodboardReducer] at hok; cases hok; exact hinv
  | batchUpdate => simp only [moodboardReducer] at hok; cases hok; exact hinv
  | setLoading b => simp only [moodboardReducer] at hok; cases hok; exact hinv

/-- C5 (amended): the reducer does not repair or reject actions that
break the sticker-ownership invariant; the invariant is preserved only
under the caller-side precondition that every `ADD_STICKER`,
`MOVE_STICKER`, `UPDATE_STICKER`-with-`timeSegmentId`, and `LOAD_STATE`
supplies segment references that exist at dispatch time. As originally
stated the claim is false: see the counterexample below, where a single
`ADD_STICKER` with a non-existent segment id is accepted unchecked. -/
theorem stickerSegInv_of_goodSegRefRun (acts : List MoodboardAction) (s : MoodboardState)
    (hrun : goodSegRefRun s acts = true) (hinv : stickerSegInv s) (s' : MoodboardState)
    (hok : applyActions s acts = .ok s') : stickerSegInv s' := by
  induction acts generalizing s with
  | nil =>
      unfold applyActions at hok
      cases hok
      exact hinv
  | cons a rest ih =>
      unfold goodSegRefRun at hrun
      rw [Bool.and_eq_true] at hrun
      obtain ⟨hact, hrest⟩ := hrun
      unfold applyActions at hok
      cases hred : moodboardReducer s a with
      | error e => rw [hred] at hok; cases hok
      | ok t =>
          rw [hred] at hok hrest
          exact ih _ hrest (stickerSegInv_step hinv hact hred) hok

/-- Witness for C5: a run that adds, moves and cascadingly deletes a
sticker with valid segment references keeps the ownership invariant. -/
theorem stickerSegInv_of_goodSegRefRun_witness : stickerSegInv w5Result :=
  stickerSegInv_of_goodSegRefRun w5Acts sampleInitialState (by decide) (by decide) w5Result
    (by decide)

/-- Counterexample to C5 as stated: one `ADD_STICKER` whose
`timeSegmentId` names no segment is reachable from the initial state and
violates the ownership invariant. -/
theorem stickerSegInv_dangling_addSticker_cex :
    (reducerResult sampleInitialState (.addSticker ghostSticker)).map
        (fun t => decide (stickerSegInv t)) = some false := by
  decide

/-- C6 (amended): `RENAME_SEGMENT`, `RESIZE_SEGMENT` and `UPDATE_SEGMENT`
with an absent id are not no-ops — spreading the `undefined` lookup
creates a fresh entry under that id carrying only the supplied fields. -/
theorem segmentUpdate_absent_id_creates_entry (s : MoodboardState) (id title : String)
    (w h : Int) (p : SegmentPayload)
    (h1 : jsLookup s.segments id = none) (h2 : jsLookup s.segments p.id = none) :
    moodboardReducer s (.renameSegment id title) =
      .ok { s with
              segments := s.segments ++ [(id, { emptySegment with title := some title })] } ∧
    moodboardReducer s (.resizeSegment id w h) =
      .ok { s with
              segments :=
                s.segments ++ [(id, { emptySegment with width := some w, height := some h })] } ∧
    moodboardReducer s (.updateSegment p) =
      .ok { s with segments := s.segments ++ [(p.id, applySegmentPatch emptySegment p)] } := by
  refine ⟨?_, ?_, ?_⟩
  · simp only [moodboardReducer, h1, Option.getD_none]
    rw [jsSet_of_lookup_none _ h1]
  · simp only [moodboardReducer, h1, Option.getD_none]
    rw [jsSet_of_lookup_none _ h1]
  · simp only [moodboardReducer, h2, Option.getD_none]
    rw [jsSet_of_lookup_none _ h2]

/-- Witness for C6's amended statement: renaming the absent id `ghost`
appends a title-only entry under that key. -/
theorem segmentUpdate_absent_id_creates_entry_witness :
    moodboardReducer sampleInitialState (.renameSegment ("ghost") ("G")) =
      .ok { sampleInitialState with
              segments :=
                sampleInitialState.segments ++
                  [("ghost", { emptySegment with title := some ("G") })] } :=
  (segmentUpdate_absent_id_creates_entry sampleInitialState ("ghost") ("G") 10 20 ghostPatch
    (by decide) (by decide)).1

/-- Counterexample to C6 as stated: after `RENAME_SEGMENT` with the
absent id `ghost`, a new entry exists under that id. -/
theorem renameSegment_absent_id_cex :
    (reducerResult sampleInitialState (.renameSegment ("ghost") ("G"))).map
        (fun t => (jsLookup t.segments ("ghost")).isSome) = some true := by
  decide

/-- C7: `REMOVE_STICKER` deletes the sticker, removes its id from every
group's `stickerIds` and from `selectedStickerIds`, and leaves segments,
all other stickers, and all groups not containing the id unchanged. -/
theorem removeSticker_cleanup (s : MoodboardState) (id : String) (s' : MoodboardState)
    (hok : moodboardReducer s (.removeSticker id) = .ok s') :
    jsLookup s'.stickers id = none ∧
    (∀ kv ∈ s'.stickerGroups, id ∉ kv.2.stickerIds) ∧
    id ∉ s'.selectedStickerIds ∧
    s'.segments = s.segments ∧
    (∀ k, k ≠ id → jsLookup s'.stickers k = jsLookup s.stickers k) ∧
    s'.stickerGroups =
      jsMapValues (fun g => { g with stickerIds := g.stickerIds.filter (fun sid => sid ≠ id) })
        s.stickerGroups ∧
    (∀ kv ∈ s.stickerGroups, id ∉ kv.2.stickerIds → kv ∈ s'.stickerGroups) ∧
    s'.selectedStickerIds = s.selectedStickerIds.filter (fun sid => sid ≠ id) := by
  simp only [moodboardReducer] at hok
  cases hok
  refine ⟨jsLookup_jsDelete_self _ _, ?_, ?_, rfl, ?_, rfl, ?_, rfl⟩
  · intro kv hkv hmem
    rcases List.mem_map.1 hkv with ⟨q, hq, hqe⟩
    rw [← hqe] at hmem
    have h2 := (List.mem_filter.1 hmem).2
    simp at h2
  · intro hmem
    have h2 := (List.mem_filter.1 hmem).2
    simp at h2
  · intro k hk
    exact jsLookup_jsDelete_ne _ hk
  · intro kv hkv hid
    refine List.mem_map.2 ⟨kv, hkv, ?_⟩
    show (kv.1, { kv.2 with stickerIds := kv.2.stickerIds.filter (fun sid => sid ≠ id) }) = kv
    have hfe : kv.2.stickerIds.filter (fun sid => sid ≠ id) = kv.2.stickerIds := by
      rw [List.filter_eq_self]
      intro a ha
      simp only [decide_eq_true_eq]
      intro he
      exact hid (he ▸ ha)
    rw [hfe]

/-- Witness for C7 at a concrete state holding the sticker `s1` and a
group listing it. -/
theorem removeSticker_cleanup_witness : jsLookup w7Result.stickers ("s1") = none :=
  (removeSticker_cleanup c4PreState ("s1") w7Result (by decide)).1

/-- C8: the selection-box filter selects exactly the stickers whose
bounding rectangle strictly overlaps the drawn rectangle; a sticker whose
edge exactly touches a box boundary is not selected. -/
theorem selectionBox_strict_overlap (stickers : JsMap Sticker) (b : SelectionBox) (st : Sticker) :
    (st ∈ selectionHits stickers b ↔
      st ∈ stickers.map (fun kv => kv.2) ∧ strictOverlapSpec st b) ∧
    (st.x + st.width = boxLeft b → st ∉ selectionHits stickers b) ∧
    (st.x = boxRight b → st ∉ selectionHits stickers b) ∧
    (st.y + st.height = boxTop b → st ∉ selectionHits stickers b) ∧
    (st.y = boxBottom b → st ∉ selectionHits stickers b) := by
  have hiff : stickerHitsBox st b = true ↔ strictOverlapSpec st b := by
    unfold stickerHitsBox strictOverlapSpec
    simp [Bool.and_eq_true, and_assoc]
  have hmem : st ∈ selectionHits stickers b ↔
      st ∈ stickers.map (fun kv => kv.2) ∧ strictOverlapSpec st b := by
    unfold selectionHits
    rw [List.mem_filter]
    exact and_congr Iff.rfl hiff
  refine ⟨hmem, ?_, ?_, ?_, ?_⟩
  · intro he hin
    have h2 := (hmem.1 hin).2.2.1
    rw [he] at h2
    exact lt_irrefl _ h2
  · intro he hin
    have h2 := (hmem.1 hin).2.1
    rw [he] at h2
    exact lt_irrefl _ h2
  · intro he hin
    have h2 := (hmem.1 hin).2.2.2.2
    rw [he] at h2
    exact lt_irrefl _ h2
  · intro he hin
    have h2 := (hmem.1 hin).2.2.2.1
    rw [he] at h2
    exact lt_irrefl _ h2

/-- Witness for C8: a sticker whose right edge equals the box's left edge
is not selected. -/
theorem selectionBox_strict_overlap_witness :
    touchSticker ∉ selectionHits [("t1", touchSticker)] touchBox :=
  (selectionBox_strict_overlap [("t1", touchSticker)] touchBox touchSticker).2.1 (by decide)

/-! Persistence (C9). -/

theorem isValidMoodboardState_ok {st : StoredMoodboard} {b : Bool}
    (h : isValidMoodboardState st = .ok b) : b = true := by
  unfold isValidMoodboardState at h
  split_ifs at h
  all_goals cases h
  rfl

/-- C9: `loadState` refuses a stored blob whose version differs from
`STATE_VERSION` with a `StateError`, and returns a state only when the
version matches and the structural validation passes. -/
theorem loadState_version_gate :
    (∀ stored : StoredState, stored.version ≠ STATE_VERSION →
        loadState (some (some stored)) = .error .stateError) ∧
    (∀ (input : Option (Option StoredState)) (st : MoodboardState),
        loadState input = .ok (some st) →
        ∃ stored, input = some (some stored) ∧ stored.version = STATE_VERSION ∧
          isValidMoodboardState stored.state = .ok true ∧ st = stored.state.value) := by
  constructor
  · intro stored hv
    simp [loadState, hv]
  · intro input st hok
    match input with
    | none => simp [loadState] at hok
    | some none => simp [loadState] at hok
    | some (some stored) =>
        simp only [loadState] at hok
        split_ifs at hok with hv
        cases hvalid : isValidMoodboardState stored.state with
        | error e => rw [hvalid] at hok; cases hok
        | ok b =>
            rw [hvalid] at hok
            injection hok with h
            injection h with h2
            have hb := isValidMoodboardState_ok hvalid
            exact ⟨stored, rfl, not_not.1 hv, hb ▸ hvalid, h2.symm⟩

/-- Witness for C9 at a version-2 blob. -/
theorem loadState_version_gate_witness :
    loadState (some (some badStored)) = .error .stateError :=
  loadState_version_gate.1 badStored (by decide)

/-- C10: `ADD_TO_GROUP` and `REMOVE_FROM_GROUP` with a `groupId` absent
from `stickerGroups` do not return a state — they fault (reading
`.stickerIds` of `undefined` throws a `TypeError`); with an existing
group they return the updated state, so the operations are total exactly
under the group-exists precondition. -/
theorem groupOps_fault_on_missing_group (s : MoodboardState) (groupId stickerId : String) :
    (jsLookup s.stickerGroups groupId = none →
        moodboardReducer s (.addToGroup groupId stickerId) = .error .typeError ∧
        moodboardReducer s (.removeFromGroup groupId stickerId) = .error .typeError) ∧
    (∀ g, jsLookup s.stickerGroups groupId = some g →
        moodboardReducer s (.addToGroup groupId stickerId) =
          .ok { s with
                  stickerGroups :=
                    jsSet s.stickerGroups groupId
                      { g with stickerIds := g.stickerIds ++ [stickerId] } } ∧
        moodboardReducer s (.removeFromGroup groupId stickerId) =
          .ok { s with
                  stickerGroups :=
                    jsSet s.stickerGroups groupId
                      { g with
                          stickerIds :=
                            g.stickerIds.filter (fun id => id ≠ stickerId) } }) := by
  constructor
  · intro h
    constructor
    · simp [moodboardReducer, h]
    · simp [moodboardReducer, h]
  · intro g h
    constructor
    · simp [moodboardReducer, h]
    · simp [moodboardReducer, h]

/-- Witness for C10: with no groups at all, `ADD_TO_GROUP` faults. -/
theorem groupOps_fault_witness :
    moodboardReducer sampleInitialState (.addToGroup ("g1") ("s1")) = .error .typeError :=
  ((groupOps_fault_on_missing_group sampleInitialState ("g1") ("s1")).1 (by decide)).1

end MoonBoard
